import Mathlib

/-!
Shallow embedding of the dbmfview Cloudflare Worker (`src/index.js`, with the
older variant `unnamed/part_000`).  JavaScript numbers are modelled as
rationals (`ℚ`); a JS `NaN` produced by a failed parse is modelled as `none`
in an `Option ℚ`.  Cell values coming out of `XLSX.utils.sheet_to_json` are
modelled by `CellValue`; numeric cells are modelled with integer values (the
JS float-to-string algorithm for non-integral floats is out of scope, and the
worksheet's DATE/TICKER cells are integral when numeric).
-/

/-- Raw spreadsheet cell value as seen by the worker after `sheet_to_json`:
absent key (`undefined`), a string, a number (modelled integral), or a boolean. -/
inductive CellValue where
  | missing
  | str (s : String)
  | num (n : ℤ)
  | boolean (b : Bool)
deriving DecidableEq

/-- JavaScript truthiness of a cell value: `undefined`, `""`, `0` and `false`
are falsy, everything else is truthy. -/
def jsTruthy : CellValue → Bool
  | .missing => false
  | .str s => decide (s ≠ "")
  | .num n => decide (n ≠ 0)
  | .boolean b => b

/-- JavaScript `String(v)` on a cell value. -/
def jsStringOfCell : CellValue → String
  | .missing => "undefined"
  | .str s => s
  | .num n => toString n
  | .boolean b => if b then "true" else "false"

/-- One data row of the worksheet below the header row, with the seven named
columns.  `PCT_HOLDINGS` is kept as a rational, matching its numeric use. -/
structure SheetRow where
  date : CellValue
  cusip : CellValue
  ticker : CellValue
  description : CellValue
  shares : CellValue
  baseMV : CellValue
  pctHoldings : ℚ
deriving DecidableEq

/-- JavaScript `String.prototype.trim`: strip whitespace from both ends,
modelled on the character list. -/
def jsTrim (s : String) : String :=
  String.mk
    (((s.data.dropWhile Char.isWhitespace).reverse.dropWhile
      Char.isWhitespace).reverse)

/-- The filter predicate of `filteredData` in the source:
`ticker && String(ticker).trim() !== ''`. -/
def keepsRow (row : SheetRow) : Bool :=
  jsTruthy row.ticker && decide (jsTrim (jsStringOfCell row.ticker) ≠ "")

/-- Function `filteredData` from the source: keep only rows whose TICKER cell passes
`keepsRow`. -/
def filteredData (rows : List SheetRow) : List SheetRow :=
  rows.filter keepsRow

/-- Numeric value of a digit run (most significant first). -/
def digitsVal (ds : List Char) : ℕ :=
  ds.foldl (fun a c => 10 * a + (c.toNat - 48)) 0

/-- Decomposed decimal literal recognised by `parseFloat`: sign, integer-part
value, fraction-part value, number of fraction digits. -/
structure FloatParts where
  neg : Bool
  ip : ℕ
  fp : ℕ
  fplen : ℕ
deriving DecidableEq

/-- String analysis of JavaScript `parseFloat`: skip leading spaces, optional
sign, then a decimal literal `digits`, `digits.digits` or `.digits`; trailing
garbage is ignored; `none` models `NaN`.  (The exponent and `Infinity` forms of
`parseFloat`, never produced by this program's inputs, are not modelled.) -/
def parseFloatParts (s : String) : Option FloatParts :=
  let cs := s.data.dropWhile (fun c => c = ' ')
  let signAndRest : Bool × List Char :=
    match cs with
    | '-' :: rest => (true, rest)
    | '+' :: rest => (false, rest)
    | _ => (false, cs)
  let neg := signAndRest.1
  let cs1 := signAndRest.2
  let ip := cs1.takeWhile Char.isDigit
  let cs2 := cs1.dropWhile Char.isDigit
  match cs2 with
  | '.' :: rest =>
    let fp := rest.takeWhile Char.isDigit
    if ip.isEmpty && fp.isEmpty then none
    else some ⟨neg, digitsVal ip, digitsVal fp, fp.length⟩
  | _ => if ip.isEmpty then none else some ⟨neg, digitsVal ip, 0, 0⟩

/-- Rational value of a recognised decimal literal. -/
def partsToRat (p : FloatParts) : ℚ :=
  (if p.neg then -1 else 1) * ((p.ip : ℚ) + (p.fp : ℚ) / 10 ^ p.fplen)

/-- JavaScript `parseFloat` as a rational, `none` for `NaN`. -/
def parseFloatQ (s : String) : Option ℚ :=
  (parseFloatParts s).map partsToRat

/-- Drop the first `'%'` of a character list, as JS `s.replace('%', '')`. -/
def dropFirstPercentChar : List Char → List Char
  | [] => []
  | c :: rest => if c = '%' then rest else c :: dropFirstPercentChar rest

/-- JS `s.replace('%', '')`: with a string pattern, `replace` removes only the
first occurrence. -/
def jsReplaceFirstPercent (s : String) : String :=
  String.mk (dropFirstPercentChar s.data)

/-- Round half away from zero (the default `halfExpand` rounding of
`Intl.NumberFormat`). -/
def roundHalfAway (q : ℚ) : ℤ :=
  if q < 0 then -Int.floor (-q + 1 / 2) else Int.floor (q + 1 / 2)

/-- Regroup a reversed digit list into blocks of three separated by commas. -/
def groupRevAux : List Char → List Char
  | a :: b :: c :: d :: rest => a :: b :: c :: ',' :: groupRevAux (d :: rest)
  | l => l

/-- Insert en-US thousands separators into a digit string. -/
def groupThousands (s : String) : String :=
  String.mk ((groupRevAux s.data.reverse).reverse)

/-- Two-digit zero-padded fraction part. -/
def twoDigitFrac (n : ℕ) : String :=
  (if n < 10 then "0" else "") ++ toString n

/-- Function `formatChangePercent` from the source: en-US number formatting with two
fraction digits, `signDisplay: 'always'`, followed by `"%"`.  (The source's
guard returning `""` for `null`/`undefined`/`""` inputs lies outside the
numeric domain and is handled at the call sites that can feed a non-number.) -/
def formatChangePercent (q : ℚ) : String :=
  let c : ℤ := roundHalfAway (q * 100)
  let sign := if q < 0 then "-" else "+"
  sign ++ groupThousands (toString (c.natAbs / 100)) ++ "." ++
    twoDigitFrac (c.natAbs % 100) ++ "%"

/-- JS `formatChangePercent(x)` where `x` may be the `NaN` produced by
arithmetic on an unparsable value: `Intl` renders `NaN` as `"NaN"`. -/
def formatChangePercentNaN : Option ℚ → String
  | some q => formatChangePercent q
  | none => "NaN%"

/-- Function `formatPercent` from the source: `Intl.NumberFormat` with
`style: 'percent'` and two fraction digits (multiply by 100, round, append
`"%"`). -/
def formatPercent (q : ℚ) : String :=
  let c : ℤ := roundHalfAway (q * 100 * 100)
  let sign := if q < 0 then "-" else ""
  sign ++ groupThousands (toString (c.natAbs / 100)) ++ "." ++
    twoDigitFrac (c.natAbs % 100) ++ "%"

/-- Function `formatDate` from the source: falsy raw values give `""`; an 8-character
string form `YYYYMMDD` is rendered `YYYY-MM-DD`; anything else is returned as
its string form. -/
def formatDate (dateNum : CellValue) : String :=
  if jsTruthy dateNum = false then ""
  else
    let dateStr := jsStringOfCell dateNum
    if dateStr.length = 8 then
      String.mk (dateStr.data.take 4) ++ "-" ++
        String.mk ((dateStr.data.drop 4).take 2) ++ "-" ++
        String.mk (dateStr.data.drop 6)
    else dateStr

/-- Char class `[A-Z]` of the source's ticker regexes. -/
def isUpperAZ (c : Char) : Bool :=
  'A' ≤ c && c ≤ 'Z'

/-- Longest leading `[A-Z]` run of a ticker, the capture of the source's
fallback regex `^([A-Z]+)` (empty when that regex does not match). -/
def leadingLetters (t : String) : String :=
  String.mk (t.data.takeWhile isUpperAZ)

/-- Match of the source regex `^([A-Z]+?)([A-Z]\d+)$` returning the first
(non-greedy) capture: it succeeds exactly when the ticker is a block of at
least two uppercase letters followed by one or more digits and nothing else,
and the capture is then the letter block without its final letter (the final
letter being the month code, the digits the year). -/
def futuresCommodityCode (t : String) : Option String :=
  let letters := t.data.takeWhile isUpperAZ
  let rest := t.data.dropWhile isUpperAZ
  if 2 ≤ letters.length ∧ rest ≠ [] ∧ rest.all Char.isDigit then
    some (String.mk letters.dropLast)
  else none

/-- Function `convertToYahooSymbol` from the source: commodity code + `"=F"`, falling
back to the leading letter run + `"=F"`, falling back to the raw ticker. -/
def convertToYahooSymbol (t : String) : String :=
  match futuresCommodityCode t with
  | some code => code ++ "=F"
  | none =>
    if leadingLetters t ≠ "" then leadingLetters t ++ "=F"
    else t

/-- Where a ticker's quote is fetched from: the Barchart page for a root
symbol, or the Yahoo chart endpoint for a lookup symbol. -/
inductive QuoteSource where
  | barchart (root : String)
  | yahoo (symbol : String)
deriving DecidableEq

/-- The routing at the top of `fetchSinglePrice`: the commodity code is the
futures-regex capture, else the leading letter run, else the whole ticker;
codes `MFS` and `MES` divert to the Barchart roots `DI` and `M0`, everything
else goes to Yahoo under `convertToYahooSymbol`. -/
def resolveSymbol (t : String) : QuoteSource :=
  let code :=
    match futuresCommodityCode t with
    | some p => p
    | none => if leadingLetters t ≠ "" then leadingLetters t else t
  if code = "MFS" then .barchart "DI"
  else if code = "MES" then .barchart "M0"
  else .yahoo (convertToYahooSymbol t)

/-- Outcome of one outbound HTTP call: `networkError` models any exception
thrown inside the `try` block (network failure, body extraction failure),
otherwise a response with its `ok` flag and a body of type `β`. -/
inductive FetchOutcome (β : Type) where
  | networkError
  | response (ok : Bool) (body : β)
deriving DecidableEq

/-- The `meta` object of the Yahoo chart response, with its optional price
fields (a missing field is `none`). -/
structure YahooMeta where
  regularMarketPrice : Option ℚ
  chartPreviousClose : Option ℚ
  previousClose : Option ℚ
deriving DecidableEq

/-- One entry of `chart.result`. -/
structure YahooResultItem where
  meta : Option YahooMeta
deriving DecidableEq

/-- The `chart` object: optional `result` array and the truthiness of the
optional `error` field. -/
structure YahooChart where
  result : Option (List YahooResultItem)
  error : Bool
deriving DecidableEq

/-- A parsed Yahoo chart response body. -/
structure YahooData where
  chart : Option YahooChart
deriving DecidableEq

/-- JavaScript truthiness of an optional number: `undefined` and `0` are
falsy. -/
def jsTruthyQ : Option ℚ → Bool
  | some q => decide (q ≠ 0)
  | none => false

/-- JavaScript `a || b` on optional numbers: `a` when truthy, else `b`. -/
def jsOrQ (a b : Option ℚ) : Option ℚ :=
  if jsTruthyQ a then a else b

/-- The optional-chain `data?.chart?.result?.[0]?.meta` of the source. -/
def metaOf (data : YahooData) : Option YahooMeta :=
  ((data.chart.bind (·.result)).bind (·.head?)).bind (·.meta)

/-- The Yahoo-path body of `fetchSinglePrice`, after symbol resolution: `"N/A"`
on any network error, non-ok status or unparsable body (`body = none` models a
`response.json()` that throws, caught by the surrounding `try`); otherwise the
percent change `(current − previous) / previous × 100` formatted, provided the
metadata is present and `regularMarketPrice` and
`chartPreviousClose || previousClose` are both truthy. -/
def fetchSinglePriceYahoo (resp : FetchOutcome (Option YahooData)) : String :=
  match resp with
  | .networkError => "N/A"
  | .response ok body =>
    if !ok then "N/A"
    else
      match body with
      | none => "N/A"
      | some data =>
        match metaOf data with
        | some m =>
          let currentPrice := m.regularMarketPrice
          let previousClose := jsOrQ m.chartPreviousClose m.previousClose
          if jsTruthyQ currentPrice && jsTruthyQ previousClose then
            formatChangePercent
              ((currentPrice.getD 0 - previousClose.getD 0) / previousClose.getD 0 * 100)
          else "N/A"
        | none => "N/A"

/-- The literal scanned for by the Barchart regex `/"percentChange":"([^"]+)"/`. -/
def percentChangeLiteral : List Char :=
  "\"percentChange\":\"".data

/-- First match of `/"percentChange":"([^"]+)"/` over the page text: at each
position, if the literal occurs there followed by a non-empty quote-free run
and a closing quote, the run is the capture; otherwise scanning resumes one
character later. -/
def scanPercentChange : List Char → Option String
  | [] => none
  | c :: rest =>
    if percentChangeLiteral.isPrefixOf (c :: rest) then
      let after := (c :: rest).drop percentChangeLiteral.length
      let cap := after.takeWhile (· ≠ '"')
      if !cap.isEmpty && (after.drop cap.length).head? = some '"' then
        some (String.mk cap)
      else scanPercentChange rest
    else scanPercentChange rest

/-- Function `fetchBarchartPrice` from the source: `"N/A"` on a network error or non-ok
status; otherwise scan the HTML for the embedded `percentChange` string, parse
it with `parseFloat` after removing the `%`, and reformat it, `"N/A"` when the
scan or the parse fails. -/
def fetchBarchartPrice (resp : FetchOutcome String) : String :=
  match resp with
  | .networkError => "N/A"
  | .response ok html =>
    if !ok then "N/A"
    else
      match scanPercentChange html.data with
      | some percentStr =>
        match parseFloatQ (jsReplaceFirstPercent percentStr) with
        | some v => formatChangePercent v
        | none => "N/A"
      | none => "N/A"

/-- Function `fetchSinglePrice` from the source: route the ticker and delegate.  The
two remote services are modelled by oracles mapping the requested root or
lookup symbol to the outcome of that HTTP call. -/
def fetchSinglePrice (yahooResp : String → FetchOutcome (Option YahooData))
    (barchartResp : String → FetchOutcome String) (t : String) : String :=
  match resolveSymbol t with
  | .barchart root => fetchBarchartPrice (barchartResp root)
  | .yahoo sym => fetchSinglePriceYahoo (yahooResp sym)

/-- One element of `dataWithContributions`: the row, the raw daily-change
string looked up for its ticker (`none` when the ticker is missing from the
price map, i.e. JS `undefined`), and the derived numbers (`none` models the
`NaN` arising from an unparsable non-`"N/A"` string). -/
structure EnrichedHolding where
  original : SheetRow
  dailyChangeStr : Option String
  dailyChangePct : Option ℚ
  contribution : Option ℚ
deriving DecidableEq

/-- The per-row body of `dataWithContributions`: both derived numbers start at
`0` and are overwritten only when the price string is truthy and not `"N/A"`,
in which case the decimal change is `parseFloat(str.replace('%','')) / 100`
and the contribution is `holdingsPct * dailyChangePct`. -/
def enrichRow (prices : String → Option String) (row : SheetRow) : EnrichedHolding :=
  match prices (jsStringOfCell row.ticker) with
  | some s =>
    if s ≠ "" ∧ s ≠ "N/A" then
      match parseFloatQ (jsReplaceFirstPercent s) with
      | some v =>
        { original := row, dailyChangeStr := some s,
          dailyChangePct := some (v / 100),
          contribution := some (row.pctHoldings * (v / 100)) }
      | none =>
        { original := row, dailyChangeStr := some s,
          dailyChangePct := none, contribution := none }
    else
      { original := row, dailyChangeStr := some s,
        dailyChangePct := some 0, contribution := some 0 }
  | none =>
    { original := row, dailyChangeStr := none,
      dailyChangePct := some 0, contribution := some 0 }

/-- Function `dataWithContributions` from the source. -/
def dataWithContributions (prices : String → Option String)
    (rows : List SheetRow) : List EnrichedHolding :=
  rows.map (enrichRow prices)

/-- The sort comparator `(a, b) => b.contribution - a.contribution` as a
boolean `le`.  A `NaN` contribution would make the JS comparator return `NaN`,
whose effect on `Array#sort` is implementation-defined; the model compares it
as `0`, and the theorems restrict to `NaN`-free inputs. -/
def contribGe (a b : EnrichedHolding) : Bool :=
  decide (b.contribution.getD 0 ≤ a.contribution.getD 0)

/-- The call `dataWithContributions.sort(...)`: `Array#sort` is stable (ES2019), so it
is modelled by the stable `mergeSort`. -/
def sortByContribution (l : List EnrichedHolding) : List EnrichedHolding :=
  l.mergeSort contribGe

/-- JS `+` on two numbers either of which may be `NaN`. -/
def jsAddOpt (a b : Option ℚ) : Option ℚ :=
  match a, b with
  | some x, some y => some (x + y)
  | _, _ => none

/-- JS `x * c` where `x` may be `NaN`. -/
def jsMulOpt (a : Option ℚ) (b : ℚ) : Option ℚ :=
  a.map (· * b)

/-- Function `totalContribution` from the source:
`dataWithContributions.reduce((sum, item) => sum + item.contribution, 0)`. -/
def totalContribution (l : List EnrichedHolding) : Option ℚ :=
  l.foldl (fun sum item => jsAddOpt sum item.contribution) (some 0)

/-- JS `a || b` for an optional string `a`: `b` when `a` is `undefined` or
empty. -/
def jsOrStr (a : Option String) (b : String) : String :=
  match a with
  | some s => if s ≠ "" then s else b
  | none => b

/-- JS `cell || ''` followed by interpolation into the page: the string form
of a truthy cell, else the empty string. -/
def cellOrEmpty (c : CellValue) : String :=
  if jsTruthy c then jsStringOfCell c else ""

/-- One row of `formattedData`, keyed in the source by the seven display
column names. -/
structure FormattedRow where
  date : String
  cusip : String
  ticker : String
  description : String
  holdingsPct : String
  dailyChange : String
  contribution : String
deriving DecidableEq

/-- The per-item body of `formattedData` in the source. -/
def formattedRow (item : EnrichedHolding) : FormattedRow :=
  let row := item.original
  { date := formatDate row.date,
    cusip := cellOrEmpty row.cusip,
    ticker := cellOrEmpty row.ticker,
    description := cellOrEmpty row.description,
    holdingsPct := formatPercent row.pctHoldings,
    dailyChange := jsOrStr item.dailyChangeStr "N/A",
    contribution :=
      if item.dailyChangeStr ≠ some "N/A" then
        formatChangePercentNaN (jsMulOpt item.contribution 100)
      else "N/A" }

/-- The display column names, in the key order of the `formattedData`
objects (`Object.keys` of the first row). -/
def tableHeaders : List String :=
  ["Date", "CUSIP", "Ticker", "Description", "Holdings %", "Daily Change",
    "Contribution"]

/-- Cell text of a formatted row under a display column name. -/
def fieldOf (r : FormattedRow) : String → String
  | "Date" => r.date
  | "CUSIP" => r.cusip
  | "Ticker" => r.ticker
  | "Description" => r.description
  | "Holdings %" => r.holdingsPct
  | "Daily Change" => r.dailyChange
  | "Contribution" => r.contribution
  | _ => ""

/-- The `td` class logic of `buildColorCodedTable`: Daily Change and
Contribution cells are sign-colored when the cell text is truthy, not `"N/A"`,
and parses to a nonzero number (`parseFloat` giving `NaN` compares false both
ways). -/
def tdClassFor (header cellValue : String) : String :=
  if (header = "Daily Change" ∨ header = "Contribution") ∧
      cellValue ≠ "" ∧ cellValue ≠ "N/A" then
    match parseFloatQ (jsReplaceFirstPercent cellValue) with
    | some v =>
      if 0 < v then " class=\"positive-change\""
      else if v < 0 then " class=\"negative-change\""
      else ""
    | none => ""
  else ""

/-- One `<tr>` of the table body, with the row class from the sign of
`PCT_HOLDINGS`. -/
def rowHtml (p : FormattedRow × EnrichedHolding) : String :=
  let originalPercent := p.2.original.pctHoldings
  let rowClass :=
    if 0 < originalPercent then "positive-holding"
    else if originalPercent < 0 then "negative-holding"
    else ""
  "<tr" ++ (if rowClass ≠ "" then " class=\"" ++ rowClass ++ "\"" else "") ++
    ">\n" ++
    String.join (tableHeaders.map (fun h =>
      "<td" ++ tdClassFor h (fieldOf p.1 h) ++ ">" ++ fieldOf p.1 h ++
        "</td>\n")) ++
    "</tr>\n"

/-- The trailing TOTAL row. -/
def totalRowHtml (total : Option ℚ) : String :=
  let totalClass :=
    match total with
    | some q =>
      if 0 < q then "positive-change"
      else if q < 0 then "negative-change"
      else ""
    | none => ""
  "<tr class=\"total-row\">\n" ++
    String.join (tableHeaders.enum.map (fun p =>
      if p.2 = "Contribution" then
        "<td class=\"" ++ totalClass ++ "\">" ++
          formatChangePercentNaN (jsMulOpt total 100) ++ "</td>\n"
      else if p.1 = 0 then "<td><strong>TOTAL</strong></td>\n"
      else "<td></td>\n")) ++
    "</tr>\n"

/-- Function `buildColorCodedTable` from the source: the literal no-holdings paragraph
when there are no formatted rows, otherwise the full table. -/
def buildColorCodedTable (formattedRows : List FormattedRow)
    (dataRows : List EnrichedHolding) (total : Option ℚ) : String :=
  if formattedRows.isEmpty then "<p>No holdings with tickers found.</p>"
  else
    "<table id=\"holdings-table\">\n" ++ "<thead><tr>\n" ++
      String.join (tableHeaders.map (fun h => "<th>" ++ h ++ "</th>\n")) ++
      "</tr></thead>\n<tbody>\n" ++
      String.join ((formattedRows.zip dataRows).map rowHtml) ++
      totalRowHtml total ++
      "</tbody>\n</table>"

/-- Document text before the table slot.  The page chrome and the long literal
style sheet of the source template are abbreviated; the structure (head, table
slot, footer with data-source link and timestamp) follows the source. -/
def htmlDocHead : String :=
  "<!DOCTYPE html>\n<html lang=\"en\">\n<head><title>DBMF Holdings</title>" ++
    "<style>(elided)</style></head>\n<body>\n<div class=\"container\">\n" ++
    "<div class=\"table-container\">\n"

/-- Document text between the table slot and the timestamp slot. -/
def htmlDocMid : String :=
  "\n</div>\n<div class=\"footer\">\n<p>Data source: " ++
    "<a href=\"https://imgpfunds.com/wp-content/uploads/pdfs/holdings/" ++
    "DBMF-Holdings.xlsx\">DBMF-Holdings.xlsx</a></p>\n<p class=\"timestamp\">" ++
    "Last updated: "

/-- Document text after the timestamp slot. -/
def htmlDocTail : String :=
  "</p>\n</div>\n</div>\n</body>\n</html>"

/-- The rendered page: the table and the current time interpolated into the
template. -/
def htmlPage (table now : String) : String :=
  htmlDocHead ++ table ++ htmlDocMid ++ now ++ htmlDocTail

/-- An HTTP response as produced by the worker: status, content type, body. -/
structure HttpResponse where
  status : Nat
  contentType : String
  body : String
deriving DecidableEq

/-- Field `Response.ok` of the upstream spreadsheet fetch: status in 200–299. -/
def respOk (status : Nat) : Bool :=
  decide (200 ≤ status) && decide (status ≤ 299)

/-- The price dictionary built by `fetchTickerPrices`: object keys are the
string forms of the raw TICKER cells; a later duplicate overwrites an earlier
one with the same key, so lookup is by key membership, with the per-key quote
result supplied by the `quote` oracle (the batching by 10 does not affect the
resulting dictionary). -/
def fetchTickerPrices (tickers : List CellValue) (quote : String → String) :
    String → Option String :=
  fun k => if (tickers.map jsStringOfCell).contains k then some (quote k) else none

/-- The whole request handler on an upstream spreadsheet response of the given
status: a non-ok status short-circuits to the plain-text 500 without touching
the parsed rows; otherwise filter, price, enrich, sort, format and render.
`quote` gives each ticker's fetched quote string and `now` the timestamp. -/
def workerFetch (status : Nat) (statusText : String) (rows : List SheetRow)
    (quote : String → String) (now : String) : HttpResponse :=
  if !respOk status then
    { status := 500, contentType := "text/plain",
      body := "Failed to fetch Excel file: " ++ toString status ++ " " ++
        statusText }
  else
    let filtered := filteredData rows
    let prices := fetchTickerPrices (filtered.map (·.ticker)) quote
    let sorted := sortByContribution (dataWithContributions prices filtered)
    let formatted := sorted.map formattedRow
    let total := totalContribution sorted
    { status := 200, contentType := "text/html;charset=UTF-8",
      body := htmlPage (buildColorCodedTable formatted sorted total) now }

/-- A holding row with only a ticker cell and a weight, used for concrete
instantiations. -/
def simpleRow (t : CellValue) (pct : ℚ) : SheetRow :=
  { date := .missing, cusip := .missing, ticker := t, description := .missing,
    shares := .missing, baseMV := .missing, pctHoldings := pct }

/-- A row whose TICKER cell is the number `0`. -/
def zeroTickerRow : SheetRow :=
  simpleRow (.num 0) (1 / 100)

/-- Concrete enriched holdings: a priced holding contributing `1/500` and an
`"N/A"` holding contributing `0`. -/
def totalWitnessList : List EnrichedHolding :=
  [{ original := simpleRow (.str "CLZ5") (1 / 10), dailyChangeStr := some "+2.00%",
     dailyChangePct := some (1 / 50), contribution := some (1 / 500) },
   { original := simpleRow (.str "XYZ") (1 / 20), dailyChangeStr := some "N/A",
     dailyChangePct := some 0, contribution := some 0 }]

/-- Concrete enriched holdings with a tie, for the sorting instantiation. -/
def sortWitnessList : List EnrichedHolding :=
  [{ original := simpleRow (.str "A1") 0, dailyChangeStr := some "N/A",
     dailyChangePct := some 0, contribution := some 0 },
   { original := simpleRow (.str "B1") 0, dailyChangeStr := some "N/A",
     dailyChangePct := some 0, contribution := some 0 },
   { original := simpleRow (.str "C1") 0, dailyChangeStr := some "+1.00%",
     dailyChangePct := some 1, contribution := some 1 }]

/-- A Yahoo response body that reports an error while also carrying complete
price metadata (`current = 3`, previous closes `2`). -/
def errorWithMetaData : YahooData :=
  YahooData.mk (some (YahooChart.mk
    (some [YahooResultItem.mk (some (YahooMeta.mk (some 3) (some 2) (some 2)))])
    true))

/-- A Yahoo response body whose `regularMarketPrice` is present but `0`, with
non-zero previous closes `2`. -/
def zeroCurrentData : YahooData :=
  YahooData.mk (some (YahooChart.mk
    (some [YahooResultItem.mk (some (YahooMeta.mk (some 0) (some 2) (some 2)))])
    false))

/-- A Yahoo response body carrying two different previous-close fields:
`current = 3`, `chartPreviousClose = 4`, `previousClose = 2`. -/
def bothClosesData : YahooData :=
  YahooData.mk (some (YahooChart.mk
    (some [YahooResultItem.mk (some (YahooMeta.mk (some 3) (some 4) (some 2)))])
    false))

/-- A Yahoo response body whose `chartPreviousClose` is present but `0`:
`current = 3`, `previousClose = 2`. -/
def falsyChartCloseData : YahooData :=
  YahooData.mk (some (YahooChart.mk
    (some [YahooResultItem.mk (some (YahooMeta.mk (some 3) (some 0) (some 2)))])
    false))

/-- Helper to evaluate `parseFloatQ` at a concrete string: the string analysis
is decidable and the rational assembly is a separate equality. -/
theorem parseFloatQ_concrete (s : String) (p : FloatParts) (q : ℚ)
    (h1 : parseFloatParts s = some p) (h2 : partsToRat p = q) :
    parseFloatQ s = some q := by
  rw [parseFloatQ, h1]
  simp [h2]

/-- C1: for every holding row, an absent or `"N/A"` percent-change string
gives decimal change and contribution exactly `0`; otherwise (whenever the
string has a numeric portion) the decimal change is that numeric portion
divided by `100` and the contribution is `holdingsPct` times it. -/
theorem contribution_from_percent_change (prices : String → Option String)
    (row : SheetRow) :
    ((prices (jsStringOfCell row.ticker) = none ∨
        prices (jsStringOfCell row.ticker) = some "N/A") →
      (enrichRow prices row).dailyChangePct = some 0 ∧
      (enrichRow prices row).contribution = some 0) ∧
    (∀ s v, prices (jsStringOfCell row.ticker) = some s → s ≠ "N/A" →
      parseFloatQ (jsReplaceFirstPercent s) = some v →
      (enrichRow prices row).dailyChangePct = some (v / 100) ∧
      (enrichRow prices row).contribution =
        some (row.pctHoldings * (v / 100))) := by
  constructor
  · rintro (hp | hp) <;> simp [enrichRow, hp]
  · intro s v hp hna hparse
    have hne : s ≠ "" := by
      rintro rfl
      rw [show jsReplaceFirstPercent "" = "" from rfl] at hparse
      rw [show parseFloatQ "" = none from rfl] at hparse
      exact Option.noConfusion hparse
    simp [enrichRow, hp, hne, hna, hparse]

/-- Witness for C1: a holding weighted `0.10` with quote string `"+2.00%"`
gets decimal change `0.02` and contribution `0.002`. -/
theorem contribution_from_percent_change_witness :
    parseFloatQ (jsReplaceFirstPercent "+2.00%") = some 2 ∧
    (enrichRow (fun k => if k = "CLZ5" then some "+2.00%" else none)
        { date := .missing, cusip := .missing, ticker := .str "CLZ5",
          description := .missing, shares := .missing, baseMV := .missing,
          pctHoldings := 1 / 10 }).contribution = some (1 / 10 * (2 / 100)) := by
  have hp : parseFloatQ (jsReplaceFirstPercent "+2.00%") = some 2 :=
    parseFloatQ_concrete _ ⟨false, 2, 0, 2⟩ 2 (by decide)
      (by norm_num [partsToRat])
  exact ⟨hp,
    ((contribution_from_percent_change
        (fun k => if k = "CLZ5" then some "+2.00%" else none)
        { date := .missing, cusip := .missing, ticker := .str "CLZ5",
          description := .missing, shares := .missing, baseMV := .missing,
          pctHoldings := 1 / 10 }).2 "+2.00%" 2 rfl (by decide) hp).2⟩

/-- Folding the JS addition from a defined accumulator over holdings whose
contributions are all defined sums them. -/
theorem totalContribution_foldl (l : List EnrichedHolding) :
    ∀ a : ℚ, (∀ e ∈ l, e.contribution ≠ none) →
      l.foldl (fun sum item => jsAddOpt sum item.contribution) (some a) =
        some (a + (l.map (fun e => e.contribution.getD 0)).sum) := by
  induction l with
  | nil => intro a _; simp
  | cons e l ih =>
    intro a h
    obtain ⟨q, hq⟩ :=
      Option.ne_none_iff_exists'.mp (h e (List.mem_cons_self e l))
    have step : jsAddOpt (some a) e.contribution = some (a + q) := by
      rw [hq]; rfl
    rw [List.foldl_cons, step,
      ih (a + q) (fun x hx => h x (List.mem_cons_of_mem e hx))]
    simp [hq, add_assoc]

/-- C6: the fund total is the `reduce` sum of every holding's contribution;
an `"N/A"` holding enters the sum with contribution `0` rather than being
excluded. -/
theorem total_equals_sum_of_contributions :
    (∀ l : List EnrichedHolding, (∀ e ∈ l, e.contribution ≠ none) →
      totalContribution l =
        some ((l.map (fun e => e.contribution.getD 0)).sum)) ∧
    (∀ (prices : String → Option String) (row : SheetRow),
      prices (jsStringOfCell row.ticker) = some "N/A" →
      (enrichRow prices row).contribution = some 0) := by
  constructor
  · intro l h
    rw [totalContribution, totalContribution_foldl l 0 h, zero_add]
  · intro prices row hp
    simp [enrichRow, hp]

/-- Witness for C6: the spec's end-to-end scenario, one holding contributing
`0.002` and one `"N/A"` holding contributing `0`, total `0.002`. -/
theorem total_equals_sum_witness :
    totalContribution totalWitnessList = some (1 / 500) := by
  rw [total_equals_sum_of_contributions.1 totalWitnessList (by decide)]
  norm_num [totalWitnessList]

/-- The comparator model is transitive. -/
theorem contribGe_trans : ∀ a b c : EnrichedHolding,
    contribGe a b = true → contribGe b c = true → contribGe a c = true := by
  intro a b c hab hbc
  simp only [contribGe, decide_eq_true_eq] at *
  exact le_trans hbc hab

/-- The comparator model is total. -/
theorem contribGe_total : ∀ a b : EnrichedHolding,
    (contribGe a b || contribGe b a) = true := by
  intro a b
  simp only [contribGe, Bool.or_eq_true, decide_eq_true_eq]
  exact le_total (b.contribution.getD 0) (a.contribution.getD 0)

/-- C2: sorting by contribution is a permutation, orders the contributions
non-increasingly, and is stable: for every contribution value, the holdings
carrying it appear in the sorted list in their original relative order. -/
theorem sort_nonincreasing_and_stable (l : List EnrichedHolding)
    (h : ∀ e ∈ l, e.contribution ≠ none) :
    List.Pairwise (fun a b => ∀ x y, a.contribution = some x →
      b.contribution = some y → y ≤ x) (sortByContribution l) ∧
    (sortByContribution l).Perm l ∧
    ∀ c : Option ℚ,
      (sortByContribution l).filter (fun e => decide (e.contribution = c)) =
        l.filter (fun e => decide (e.contribution = c)) := by
  refine ⟨?_, List.mergeSort_perm l contribGe, ?_⟩
  · have hs := List.sorted_mergeSort contribGe_trans contribGe_total l
    refine hs.imp ?_
    intro a b hab x y hx hy
    simp only [contribGe, decide_eq_true_eq, hx, hy, Option.getD_some] at hab
    exact hab
  · intro c
    set p : EnrichedHolding → Bool := fun e => decide (e.contribution = c) with hp
    have hApair : (l.filter p).Pairwise (fun a b => contribGe a b = true) := by
      have hall : ∀ a ∈ l.filter p, ∀ b ∈ l.filter p, contribGe a b = true := by
        intro a ha b hb
        have ha2 : a.contribution = c := by
          have := List.of_mem_filter ha
          simpa [hp] using this
        have hb2 : b.contribution = c := by
          have := List.of_mem_filter hb
          simpa [hp] using this
        simp [contribGe, ha2, hb2]
      exact List.pairwise_of_forall_mem_list hall
    have h1 : (l.filter p).Sublist (l.mergeSort contribGe) :=
      List.mergeSort_stable contribGe_trans contribGe_total hApair
        (List.filter_sublist l)
    have h2 : (l.filter p).filter p = l.filter p := by
      rw [List.filter_eq_self]
      intro a ha
      exact List.of_mem_filter ha
    have h3 : (l.filter p).Sublist ((l.mergeSort contribGe).filter p) := by
      have := h1.filter p
      rwa [h2] at this
    have hperm : ((l.mergeSort contribGe).filter p).Perm (l.filter p) :=
      (List.mergeSort_perm l contribGe).filter p
    have hlen : (l.filter p).length = ((l.mergeSort contribGe).filter p).length :=
      hperm.length_eq.symm
    exact (h3.eq_of_length hlen).symm

/-- Witness for C2 at a concrete three-element list with a tie: the sorted
list is a permutation of the input. -/
theorem sort_nonincreasing_and_stable_witness :
    (sortByContribution sortWitnessList).Perm sortWitnessList :=
  (sort_nonincreasing_and_stable sortWitnessList (by decide)).2.1

/-- A ticker that does not end in a digit cannot match the futures regex. -/
theorem futuresCommodityCode_eq_none_of_last_not_digit (t : String)
    (h : ∀ c, t.data.getLast? = some c → c.isDigit = false) :
    futuresCommodityCode t = none := by
  rw [futuresCommodityCode]
  rw [if_neg]
  rintro ⟨-, h2, h3⟩
  have hsplit :
      List.takeWhile isUpperAZ t.data ++ List.dropWhile isUpperAZ t.data =
        t.data :=
    List.takeWhile_append_dropWhile isUpperAZ t.data
  have hlast : t.data.getLast? = (List.dropWhile isUpperAZ t.data).getLast? := by
    conv_lhs => rw [← hsplit]
    exact List.getLast?_append_of_ne_nil _ h2
  have hform := List.getLast?_eq_getLast (List.dropWhile isUpperAZ t.data) h2
  have hmem := List.getLast_mem h2
  have hdig := List.all_eq_true.mp h3 _ hmem
  rw [h _ (hlast.trans hform)] at hdig
  exact Bool.false_ne_true hdig

/-- A ticker with no leading `[A-Z]` run cannot match the futures regex. -/
theorem futuresCommodityCode_eq_none_of_no_letters (t : String)
    (h : leadingLetters t = "") : futuresCommodityCode t = none := by
  have hempty : t.data.takeWhile isUpperAZ = [] := by
    have := congrArg String.data h
    simpa [leadingLetters] using this
  rw [futuresCommodityCode, hempty]
  simp

/-- C3: the concrete resolutions `CLZ5 → CL=F`, `MFSZ5 → DI`, `MESZ5 → M0`;
a ticker with no trailing digit resolves, on the Yahoo path, to its leading
letter run + `"=F"`; a ticker with no leading letter run resolves to itself
unchanged. -/
theorem symbol_resolution :
    resolveSymbol "CLZ5" = .yahoo "CL=F" ∧
    resolveSymbol "MFSZ5" = .barchart "DI" ∧
    resolveSymbol "MESZ5" = .barchart "M0" ∧
    (∀ t : String, (∀ c, t.data.getLast? = some c → c.isDigit = false) →
      leadingLetters t ≠ "" → leadingLetters t ≠ "MFS" →
      leadingLetters t ≠ "MES" →
      resolveSymbol t = .yahoo (leadingLetters t ++ "=F")) ∧
    (∀ t : String, leadingLetters t = "" → resolveSymbol t = .yahoo t) := by
  refine ⟨by decide, by decide, by decide, ?_, ?_⟩
  · intro t hd hne hmfs hmes
    have h0 := futuresCommodityCode_eq_none_of_last_not_digit t hd
    rw [resolveSymbol, convertToYahooSymbol, h0]
    simp [hne, hmfs, hmes]
  · intro t h
    have h0 := futuresCommodityCode_eq_none_of_no_letters t h
    have hmfs : t ≠ "MFS" := by
      rintro rfl
      exact absurd h (by decide)
    have hmes : t ≠ "MES" := by
      rintro rfl
      exact absurd h (by decide)
    rw [resolveSymbol, convertToYahooSymbol, h0]
    simp [h, hmfs, hmes]

/-- Witness for C3: `"ABC"` (letters only) resolves to `"ABC=F"` on the Yahoo
path, and `"9Z"` (no leading letter) resolves unchanged. -/
theorem symbol_resolution_witness :
    resolveSymbol "ABC" = .yahoo "ABC=F" ∧ resolveSymbol "9Z" = .yahoo "9Z" := by
  constructor
  · refine symbol_resolution.2.2.2.1 "ABC" ?_ (by decide) (by decide) (by decide)
    intro c hc
    rw [show "ABC".data.getLast? = some 'C' from rfl] at hc
    rw [← Option.some.inj hc]
    decide
  · exact symbol_resolution.2.2.2.2 "9Z" (by decide)

/-- C7: every per-ticker failure mode — network error, non-ok status,
malformed body, failed scan, failed parse — yields the literal `"N/A"` on
both quote paths, and `fetchSinglePrice` always returns either `"N/A"` or a
formatted percent string, never an exception. -/
theorem quote_failure_degrades :
    (fetchBarchartPrice .networkError = "N/A") ∧
    (∀ h : String, fetchBarchartPrice (.response false h) = "N/A") ∧
    (∀ h : String, scanPercentChange h.data = none →
      fetchBarchartPrice (.response true h) = "N/A") ∧
    (∀ (h s : String), scanPercentChange h.data = some s →
      parseFloatQ (jsReplaceFirstPercent s) = none →
      fetchBarchartPrice (.response true h) = "N/A") ∧
    (fetchSinglePriceYahoo .networkError = "N/A") ∧
    (∀ b, fetchSinglePriceYahoo (.response false b) = "N/A") ∧
    (fetchSinglePriceYahoo (.response true none) = "N/A") ∧
    (∀ yahooResp barchartResp t,
      fetchSinglePrice yahooResp barchartResp t = "N/A" ∨
      ∃ q, fetchSinglePrice yahooResp barchartResp t = formatChangePercent q) := by
  refine ⟨rfl, fun h => rfl, ?_, ?_, rfl, fun b => rfl, rfl, ?_⟩
  · intro h hscan
    simp [fetchBarchartPrice, hscan]
  · intro h s hscan hparse
    simp [fetchBarchartPrice, hscan, hparse]
  · intro yahooResp barchartResp t
    have hbar : ∀ resp, fetchBarchartPrice resp = "N/A" ∨
        ∃ q, fetchBarchartPrice resp = formatChangePercent q := by
      intro resp
      rcases resp with _ | ⟨ok, html⟩
      · exact Or.inl rfl
      · cases ok
        · exact Or.inl rfl
        · rw [fetchBarchartPrice]
          cases hscan : scanPercentChange html.data with
          | none => simp
          | some s =>
            cases hparse : parseFloatQ (jsReplaceFirstPercent s) with
            | none => simp [hparse]
            | some v =>
              right
              exact ⟨v, by simp [hparse]⟩
    have hyah : ∀ resp, fetchSinglePriceYahoo resp = "N/A" ∨
        ∃ q, fetchSinglePriceYahoo resp = formatChangePercent q := by
      intro resp
      rcases resp with _ | ⟨ok, body⟩
      · exact Or.inl rfl
      · cases ok
        · exact Or.inl rfl
        · cases body with
          | none => exact Or.inl rfl
          | some data =>
            rw [fetchSinglePriceYahoo]
            cases hmeta : metaOf data with
            | none => simp [hmeta]
            | some m =>
              by_cases hcond : (jsTruthyQ m.regularMarketPrice &&
                  jsTruthyQ (jsOrQ m.chartPreviousClose m.previousClose)) = true
              · right
                refine ⟨(m.regularMarketPrice.getD 0 -
                    (jsOrQ m.chartPreviousClose m.previousClose).getD 0) /
                    (jsOrQ m.chartPreviousClose m.previousClose).getD 0 * 100, ?_⟩
                simp [hmeta, hcond]
              · left
                simp [hmeta, hcond]
    rw [fetchSinglePrice]
    cases resolveSymbol t with
    | barchart root => exact hbar (barchartResp root)
    | yahoo sym => exact hyah (yahooResp sym)

/-- Witness for C7: a page without the embedded percent-change field yields
`"N/A"`. -/
theorem quote_failure_degrades_witness :
    fetchBarchartPrice (.response true "<html></html>") = "N/A" :=
  quote_failure_degrades.2.2.1 "<html></html>" (by decide)

/-- Counterexample to C5, one concrete failing input per divergence between
the claim and the code.  First, a body reporting an endpoint error while also
carrying complete metadata (`current = 3`, closes `2`) returns `"+50.00%"`,
not the `"N/A"` the claim requires whenever "the endpoint reports an error"
(the source checks `chart.error` only after the price computation returned,
and only logs it).  Second, a `regularMarketPrice` that is present but `0`
with `previousClose = 2` non-zero returns `"N/A"`, while the claim's success
branch — which requires the prices only to be present and `previousClose`
non-zero — predicts the formatted `"-100.00%"`.  Third, with both close
fields present and different (`chartPreviousClose = 4`, `previousClose = 2`,
`current = 3`), the code computes against `chartPreviousClose` and returns
`"-25.00%"`, while the claim's "previousClose (or the chart-specific
fallback)" selection predicts `"+50.00%"`.  Fourth, a `chartPreviousClose`
that is present but `0` is skipped by truthiness, not presence: the code
falls back to `previousClose = 2` and returns `"+50.00%"`. -/
theorem yahoo_quote_claim_counterexample :
    (Option.map YahooChart.error errorWithMetaData.chart = some true ∧
      fetchSinglePriceYahoo (.response true (some errorWithMetaData)) =
        "+50.00%" ∧
      fetchSinglePriceYahoo (.response true (some errorWithMetaData)) ≠
        "N/A") ∧
    (metaOf zeroCurrentData =
        some (YahooMeta.mk (some 0) (some 2) (some 2)) ∧
      fetchSinglePriceYahoo (.response true (some zeroCurrentData)) = "N/A" ∧
      formatChangePercent (((0 : ℚ) - 2) / 2 * 100) = "-100.00%") ∧
    (metaOf bothClosesData =
        some (YahooMeta.mk (some 3) (some 4) (some 2)) ∧
      fetchSinglePriceYahoo (.response true (some bothClosesData)) =
        "-25.00%" ∧
      formatChangePercent (((3 : ℚ) - 2) / 2 * 100) = "+50.00%" ∧
      fetchSinglePriceYahoo (.response true (some bothClosesData)) ≠
        "+50.00%") ∧
    (metaOf falsyChartCloseData =
        some (YahooMeta.mk (some 3) (some 0) (some 2)) ∧
      fetchSinglePriceYahoo (.response true (some falsyChartCloseData)) =
        "+50.00%") := by
  have hfifty : formatChangePercent 50 = "+50.00%" := by
    norm_num [formatChangePercent, roundHalfAway, groupThousands, groupRevAux,
      twoDigitFrac]
    decide
  have herr : fetchSinglePriceYahoo (.response true (some errorWithMetaData)) =
      "+50.00%" := by
    rw [fetchSinglePriceYahoo]
    rw [show metaOf errorWithMetaData =
      some (YahooMeta.mk (some 3) (some 2) (some 2)) from rfl]
    have hcond : (jsTruthyQ (some (3 : ℚ)) &&
        jsTruthyQ (jsOrQ (some 2) (some 2))) = true := by
      norm_num [jsTruthyQ, jsOrQ]
    simp only [Bool.not_true, Bool.false_eq_true, if_false]
    rw [if_pos hcond]
    rw [show (((some (3 : ℚ)).getD 0 - (jsOrQ (some 2) (some 2)).getD 0) /
        (jsOrQ (some 2) (some 2)).getD 0 * 100) = 50 by
      norm_num [jsOrQ, jsTruthyQ]]
    exact hfifty
  have hzero : fetchSinglePriceYahoo (.response true (some zeroCurrentData)) =
      "N/A" := by
    rw [fetchSinglePriceYahoo]
    rw [show metaOf zeroCurrentData =
      some (YahooMeta.mk (some 0) (some 2) (some 2)) from rfl]
    have hcond : (jsTruthyQ (some (0 : ℚ)) &&
        jsTruthyQ (jsOrQ (some 2) (some 2))) = false := by
      norm_num [jsTruthyQ, jsOrQ]
    simp only [Bool.not_true, Bool.false_eq_true, if_false]
    rw [if_neg (by rw [hcond]; exact Bool.false_ne_true)]
  have hminus : fetchSinglePriceYahoo (.response true (some bothClosesData)) =
      "-25.00%" := by
    rw [fetchSinglePriceYahoo]
    rw [show metaOf bothClosesData =
      some (YahooMeta.mk (some 3) (some 4) (some 2)) from rfl]
    have hcond : (jsTruthyQ (some (3 : ℚ)) &&
        jsTruthyQ (jsOrQ (some 4) (some 2))) = true := by
      norm_num [jsTruthyQ, jsOrQ]
    simp only [Bool.not_true, Bool.false_eq_true, if_false]
    rw [if_pos hcond]
    rw [show (((some (3 : ℚ)).getD 0 - (jsOrQ (some 4) (some 2)).getD 0) /
        (jsOrQ (some 4) (some 2)).getD 0 * 100) = -25 by
      norm_num [jsOrQ, jsTruthyQ]]
    norm_num [formatChangePercent, roundHalfAway, groupThousands, groupRevAux,
      twoDigitFrac]
    decide
  have hfalsy :
      fetchSinglePriceYahoo (.response true (some falsyChartCloseData)) =
        "+50.00%" := by
    rw [fetchSinglePriceYahoo]
    rw [show metaOf falsyChartCloseData =
      some (YahooMeta.mk (some 3) (some 0) (some 2)) from rfl]
    have hcond : (jsTruthyQ (some (3 : ℚ)) &&
        jsTruthyQ (jsOrQ (some 0) (some 2))) = true := by
      norm_num [jsTruthyQ, jsOrQ]
    simp only [Bool.not_true, Bool.false_eq_true, if_false]
    rw [if_pos hcond]
    rw [show (((some (3 : ℚ)).getD 0 - (jsOrQ (some 0) (some 2)).getD 0) /
        (jsOrQ (some 0) (some 2)).getD 0 * 100) = 50 by
      norm_num [jsOrQ, jsTruthyQ]]
    exact hfifty
  refine ⟨⟨rfl, herr, by rw [herr]; decide⟩,
    ⟨rfl, hzero, ?_⟩,
    ⟨rfl, hminus, ?_, by rw [hminus]; decide⟩,
    ⟨rfl, hfalsy⟩⟩
  · rw [show (((0 : ℚ) - 2) / 2 * 100) = -100 by norm_num]
    norm_num [formatChangePercent, roundHalfAway, groupThousands, groupRevAux,
      twoDigitFrac]
    decide
  · rw [show (((3 : ℚ) - 2) / 2 * 100) = 50 by norm_num]
    exact hfifty

/-- C5 as amended: on the Yahoo path the effective previous close is
`chartPreviousClose` when truthy, else `previousClose`; when it and
`regularMarketPrice` are both truthy (present and non-zero) the result is the
formatted percent change, regardless of any reported endpoint error; the
result is `"N/A"` exactly when the HTTP call fails, the status is not ok, the
body is malformed, the metadata chain is missing, or either price is missing
or zero. -/
theorem yahoo_quote_spec :
    (fetchSinglePriceYahoo .networkError = "N/A") ∧
    (∀ body, fetchSinglePriceYahoo (.response false body) = "N/A") ∧
    (fetchSinglePriceYahoo (.response true none) = "N/A") ∧
    (∀ data, metaOf data = none →
      fetchSinglePriceYahoo (.response true (some data)) = "N/A") ∧
    (∀ data m, metaOf data = some m →
      (jsTruthyQ m.regularMarketPrice &&
        jsTruthyQ (jsOrQ m.chartPreviousClose m.previousClose)) = false →
      fetchSinglePriceYahoo (.response true (some data)) = "N/A") ∧
    (∀ data m, metaOf data = some m →
      jsTruthyQ m.regularMarketPrice = true →
      jsTruthyQ (jsOrQ m.chartPreviousClose m.previousClose) = true →
      fetchSinglePriceYahoo (.response true (some data)) =
        formatChangePercent
          ((m.regularMarketPrice.getD 0 -
              (jsOrQ m.chartPreviousClose m.previousClose).getD 0) /
            (jsOrQ m.chartPreviousClose m.previousClose).getD 0 * 100)) := by
  refine ⟨rfl, fun body => rfl, rfl, ?_, ?_, ?_⟩
  · intro data hmeta
    simp [fetchSinglePriceYahoo, hmeta]
  · intro data m hmeta hcond
    simp [fetchSinglePriceYahoo, hmeta, hcond]
  · intro data m hmeta h1 h2
    simp [fetchSinglePriceYahoo, hmeta, h1, h2]

/-- Witness for C5's amended theorem: metadata with `current = 4`, a missing
`chartPreviousClose` and `previousClose = 2` yields `"+100.00%"`. -/
theorem yahoo_quote_spec_witness :
    fetchSinglePriceYahoo (.response true (some (YahooData.mk (some
      (YahooChart.mk (some [YahooResultItem.mk (some
        (YahooMeta.mk (some 4) none (some 2)))]) false))))) = "+100.00%" := by
  have h := yahoo_quote_spec.2.2.2.2.2
    (YahooData.mk (some (YahooChart.mk (some [YahooResultItem.mk (some
      (YahooMeta.mk (some 4) none (some 2)))]) false)))
    (YahooMeta.mk (some 4) none (some 2)) rfl
    (by norm_num [jsTruthyQ]) (by norm_num [jsTruthyQ, jsOrQ])
  rw [h]
  rw [show (((some (4 : ℚ)).getD 0 - (jsOrQ none (some 2)).getD 0) /
      (jsOrQ none (some 2)).getD 0 * 100) = 100 by
    norm_num [jsOrQ, jsTruthyQ]]
  norm_num [formatChangePercent, roundHalfAway, groupThousands, groupRevAux,
    twoDigitFrac]
  decide

/-- Counterexample to C4: a TICKER cell holding the number `0` has the
non-empty trimmed string form `"0"`, so the claim's criterion would keep the
row, but the code's truthiness guard `ticker &&` drops it. -/
theorem zero_ticker_counterexample :
    jsTrim (jsStringOfCell zeroTickerRow.ticker) ≠ "" ∧
    filteredData [zeroTickerRow] = [] := by
  constructor
  · decide
  · rfl

/-- C4 as amended: a row is kept exactly when its TICKER cell is truthy in
the JavaScript sense (excluding `undefined`, `""`, `0` and `false`) and its
string form, trimmed, is non-empty; the kept rows form a sublist of the
input, preserving source order. -/
theorem holding_kept_iff (rows : List SheetRow) :
    (∀ r, r ∈ filteredData rows ↔
      r ∈ rows ∧ jsTruthy r.ticker = true ∧
        jsTrim (jsStringOfCell r.ticker) ≠ "") ∧
    (filteredData rows).Sublist rows := by
  constructor
  · intro r
    rw [filteredData, List.mem_filter]
    constructor
    · rintro ⟨hm, hk⟩
      refine ⟨hm, ?_⟩
      simpa [keepsRow] using hk
    · rintro ⟨hm, h1, h2⟩
      exact ⟨hm, by simp [keepsRow, h1, h2]⟩
  · exact List.filter_sublist rows

/-- C8: a non-ok upstream status yields a 500 `text/plain` response whose body
contains the upstream status code and reason text, and the result does not
depend on the would-be parsed spreadsheet rows or quotes (the pipeline aborts
before parsing). -/
theorem upstream_failure_500 (status : Nat) (statusText : String)
    (h : respOk status = false) (rows : List SheetRow)
    (quote : String → String) (now : String) :
    (workerFetch status statusText rows quote now).status = 500 ∧
    (workerFetch status statusText rows quote now).contentType =
      "text/plain" ∧
    (toString status).data <:+:
      (workerFetch status statusText rows quote now).body.data ∧
    statusText.data <:+:
      (workerFetch status statusText rows quote now).body.data ∧
    (∀ (rows2 : List SheetRow) (quote2 : String → String),
      workerFetch status statusText rows2 quote2 now =
        workerFetch status statusText rows quote now) := by
  have hw : ∀ (rs : List SheetRow) (qt : String → String),
      workerFetch status statusText rs qt now =
      { status := 500, contentType := "text/plain",
        body := "Failed to fetch Excel file: " ++ toString status ++ " " ++
          statusText } := by
    intro rs qt
    rw [workerFetch, h]
    rfl
  refine ⟨by rw [hw], by rw [hw], ?_, ?_, fun rows2 quote2 => by rw [hw, hw]⟩
  · refine ⟨"Failed to fetch Excel file: ".data, (" " ++ statusText).data, ?_⟩
    rw [hw]
    simp [String.data_append]
  · refine ⟨("Failed to fetch Excel file: " ++ toString status ++ " ").data,
      [], ?_⟩
    rw [hw]
    simp [String.data_append]

/-- Witness for C8: an upstream 404 produces a 500 whose body contains
`"404"` and `"Not Found"`. -/
theorem upstream_failure_500_witness :
    respOk 404 = false ∧
    (workerFetch 404 "Not Found" [] (fun _ => "N/A") "T").status = 500 ∧
    "404".data <:+:
      (workerFetch 404 "Not Found" [] (fun _ => "N/A") "T").body.data ∧
    "Not Found".data <:+:
      (workerFetch 404 "Not Found" [] (fun _ => "N/A") "T").body.data := by
  have h := upstream_failure_500 404 "Not Found" (by decide) []
    (fun _ => "N/A") "T"
  exact ⟨by decide, h.1, h.2.2.1, h.2.2.2.1⟩

/-- Counterexample to C9: the raw date value `0` has the one-character string
form `"0"`, so under the claim it should pass through unchanged, but the
source's falsy guard returns the empty string instead. -/
theorem formatDate_passthrough_counterexample :
    jsStringOfCell (.num 0) = "0" ∧ formatDate (.num 0) = "" ∧
    formatDate (.num 0) ≠ jsStringOfCell (.num 0) := by
  refine ⟨by decide, by decide, by decide⟩

/-- C9 as amended: a falsy raw date value renders as `""`; a truthy one with
an 8-character string form renders dashed, any other truthy one passes
through as its string form; `20240115 → "2024-01-15"`, `0.0123 → "1.23%"`,
`-0.54 → "-0.54%"`. -/
theorem formatting_rules :
    (∀ v : CellValue, jsTruthy v = false → formatDate v = "") ∧
    (∀ v : CellValue, jsTruthy v = true → (jsStringOfCell v).length ≠ 8 →
      formatDate v = jsStringOfCell v) ∧
    (∀ v : CellValue, jsTruthy v = true → (jsStringOfCell v).length = 8 →
      formatDate v =
        String.mk ((jsStringOfCell v).data.take 4) ++ "-" ++
          String.mk (((jsStringOfCell v).data.drop 4).take 2) ++ "-" ++
          String.mk ((jsStringOfCell v).data.drop 6)) ∧
    formatDate (.num 20240115) = "2024-01-15" ∧
    formatPercent (123 / 10000) = "1.23%" ∧
    formatChangePercent (-(54 / 100)) = "-0.54%" := by
  refine ⟨?_, ?_, ?_, by decide, ?_, ?_⟩
  · intro v hv
    simp [formatDate, hv]
  · intro v hv hlen
    simp [formatDate, hv, hlen]
  · intro v hv hlen
    simp [formatDate, hv, hlen]
  · norm_num [formatPercent, roundHalfAway, groupThousands, groupRevAux,
      twoDigitFrac]
    decide
  · norm_num [formatChangePercent, roundHalfAway, groupThousands, groupRevAux,
      twoDigitFrac]
    decide

/-- Witness for C9's amended theorem: the truthy non-8-character value
`"hello"` passes through unchanged. -/
theorem formatting_rules_witness :
    formatDate (.str "hello") = jsStringOfCell (.str "hello") :=
  formatting_rules.2.1 (.str "hello") (by decide) (by decide)

/-- C10: when no holding passes the ticker filter, the response is still a
successful 200 HTML page whose table region is the literal no-holdings
paragraph (and `buildColorCodedTable` on an empty row list is exactly that
paragraph for any data rows and total). -/
theorem empty_holdings_page (status : Nat) (statusText : String)
    (rows : List SheetRow) (quote : String → String) (now : String)
    (hok : respOk status = true) (hempty : filteredData rows = []) :
    (workerFetch status statusText rows quote now).status = 200 ∧
    (workerFetch status statusText rows quote now).contentType =
      "text/html;charset=UTF-8" ∧
    "<p>No holdings with tickers found.</p>".data <:+:
      (workerFetch status statusText rows quote now).body.data ∧
    (∀ (dataRows : List EnrichedHolding) (total : Option ℚ),
      buildColorCodedTable [] dataRows total =
        "<p>No holdings with tickers found.</p>") := by
  have hw : workerFetch status statusText rows quote now =
      { status := 200, contentType := "text/html;charset=UTF-8",
        body := htmlPage "<p>No holdings with tickers found.</p>" now } := by
    rw [workerFetch, hok]
    simp only [Bool.not_true, Bool.false_eq_true, if_false, hempty,
      dataWithContributions, List.map_nil, sortByContribution,
      List.mergeSort_nil]
    rfl
  refine ⟨by rw [hw], by rw [hw], ?_, fun dataRows total => rfl⟩
  refine ⟨htmlDocHead.data, (htmlDocMid ++ now ++ htmlDocTail).data, ?_⟩
  rw [hw]
  simp [htmlPage, String.data_append]

/-- Witness for C10: a single row with a missing ticker cell filters to
nothing and yields the 200 page with the paragraph. -/
theorem empty_holdings_page_witness :
    (workerFetch 200 "OK" [simpleRow CellValue.missing 0] (fun _ => "N/A")
      "T").status = 200 ∧
    "<p>No holdings with tickers found.</p>".data <:+:
      (workerFetch 200 "OK" [simpleRow CellValue.missing 0] (fun _ => "N/A")
        "T").body.data := by
  have h := empty_holdings_page 200 "OK" [simpleRow CellValue.missing 0]
    (fun _ => "N/A") "T" (by decide) (by decide)
  exact ⟨h.1, h.2.2.1⟩
